import Mathlib

/-!
Verification of the migration-and-bootstrap subsystem of the `watchman`
repository (src/internal/database/mysql.go): the ordered migration
registry, the apply-and-track migration runner, the connect-verify-migrate
bootstrapper, and the ephemeral test-database provider.

Pure data (the registry, the connection string) is embedded directly from
the source.  The migration runner (`migrator.Migrate`), the step
constructor `execsql`, and the close semantics of the external database
and container handles live outside src/internal/database/mysql.go; those
are modelled from the spec, as marked on each definition.  Effectful
functions of the source are embedded as functions of an explicit
environment that fixes the outcome of each external call, returning the
trace of actions performed.
-/

set_option autoImplicit false
set_option maxRecDepth 8192

namespace Watchman

/-- A Migration Step: a named unit of schema change — a stable identifier
plus an ordered sequence of SQL statements. -/
structure Step where
  id : String
  stmts : List String
deriving DecidableEq, Repr

/-- Modelled from the spec: `execsql` (a repository helper declared outside
src/internal/database/mysql.go) packages one named SQL statement as a
Migration Step. -/
def execsql (name : String) (raw : String) : Step :=
  ⟨name, [raw]⟩

/-- The MySQL Migration Registry of src/internal/database/mysql.go lines
21–55: the ordered, build-time-fixed list of Steps passed to
`migrator.New`. -/
def mysqlMigrator : List Step :=
  [ execsql "create_customer_name_watches"
      "create table if not exists customer_name_watches(id varchar(40) primary key, name varchar(40), webhook varchar(512), auth_token varchar(128), created_at datetime, deleted_at datetime);",
    execsql "create_customer_status"
      "create table if not exists customer_status(customer_id varchar(40), user_id varchar(40), note varchar(1024), status varchar(10), created_at datetime, deleted_at datetime);",
    execsql "create_customer_watches"
      "create table if not exists customer_watches(id varchar(40) primary key, customer_id varchar(40), webhook varchar(512), auth_token varchar(128), created_at datetime, deleted_at datetime);",
    execsql "create_company_name_watches"
      "create table if not exists company_name_watches(id varchar(40) primary key, name varchar(256), webhook varchar(512), auth_token varchar(128), created_at datetime, deleted_at datetime);",
    execsql "create_company_status"
      "create table if not exists company_status(company_id varchar(40), user_id varchar(40), note varchar(1024), status varchar(10), created_at datetime, deleted_at datetime);",
    execsql "create_company_watches"
      "create table if not exists company_watches(id varchar(40) primary key, company_id varchar(40), webhook varchar(512), auth_token varchar(128), created_at datetime, deleted_at datetime);",
    execsql "create_ofac_download_stats"
      "create table if not exists ofac_download_stats(downloaded_at datetime, sdns integer, alt_names integer, addresses integer);",
    execsql "create_webhook_stats"
      "create table if not exists webhook_stats(watch_id varchar(40), attempted_at datetime, status varchar(10));",
    execsql "add__denied_persons__to__ofac_download_stats"
      "alter table ofac_download_stats add column denied_persons integer not null default 0;" ]

/-- The observable state of one target database: the Tracker (the ordered
list of Step ids recorded as applied) and the schema effects (the list of
SQL statements that were executed against the handle, in order). -/
structure DbState where
  tracker : List String
  schema : List String
deriving DecidableEq, Repr

/-- Modelled from the spec: the Migration Runner algorithm (spec §4.2) of
the external `migrator` package, whose code is not under src/.  For each
Step in Registry order: if its id is already in the Tracker, skip it;
otherwise execute its statements (the oracle `exec` decides success) and
on success record the id in the Tracker; on failure abort immediately.
Returns the final database state, the ids of the Steps attempted
(executed), in order, and the failing Step id when the run aborted. -/
def migrateFrom (exec : Step → Bool) : List Step → DbState → DbState × List String × Option String
  | [], s => (s, [], none)
  | step :: rest, s =>
    if step.id ∈ s.tracker then
      migrateFrom exec rest s
    else if exec step then
      let r := migrateFrom exec rest ⟨s.tracker ++ [step.id], s.schema ++ step.stmts⟩
      (r.1, step.id :: r.2.1, r.2.2)
    else
      (s, [step.id], some step.id)

/-- Does the list contain a value twice? -/
def dupId : List String → Bool
  | [] => false
  | x :: xs => decide (x ∈ xs) || dupId xs

/-- Modelled from the spec: Registry construction (the external package's
constructor `migrator.New`, whose code is not under src/) builds an ordered
Registry from the given Steps and rejects duplicate Step ids before any
database interaction — the function takes no database handle at all. -/
def registryNew (steps : List Step) : Except String (List Step) :=
  if dupId (steps.map Step.id) then .error "duplicate migration id" else .ok steps

/-- The fixed query options of the connection string built by
`mysqlConnection` (src/internal/database/mysql.go line 91): connect
timeout of 30 seconds, encryption disabled, UTF-8 multibyte character
set, time parsing enabled, lenient date handling. -/
def mysqlFixedOptions : List String :=
  ["timeout=30s", "tls=false", "charset=utf8mb4", "parseTime=true",
   "sql_mode=ALLOW_INVALID_DATES"]

/-- Embedding of `mysqlConnection` (src/internal/database/mysql.go lines
90–96), reduced to the DSN it assembles:
`fmt.Sprintf("%s:%s@%s/%s?%s", user, pass, address, database, options)`
with the fixed options string of line 91. -/
def mysqlConnection (user : String) (pass : String) (address : String)
    (database : String) : String :=
  user ++ ":" ++ pass ++ "@" ++ address ++ "/" ++ database ++ "?" ++
    "timeout=30s&tls=false&charset=utf8mb4&parseTime=true&sql_mode=ALLOW_INVALID_DATES"

/-- Outcomes of the three external calls `mysql.Connect` makes: `sql.Open`,
`db.Ping`, and `mysqlMigrator.Migrate`.  `none` means the call succeeds;
`some e` means it returns error `e`. -/
structure ConnEnv where
  openErr : Option String
  pingErr : Option String
  migrateErr : Option String
deriving DecidableEq, Repr

/-- The actions `mysql.Connect` can perform, in the order it performs
them. -/
inductive ConnAction where
  | openHandle
  | ping
  | migrate
deriving DecidableEq, Repr

/-- Result of `mysql.Connect`: the trace of actions performed in order,
the returned handle (if any), the returned error (if any), whether a
handle was opened by `sql.Open`, and whether `Connect` closed that handle
before returning. -/
structure ConnectResult where
  trace : List ConnAction
  db : Option Unit
  err : Option String
  handleOpened : Bool
  handleClosed : Bool
deriving DecidableEq, Repr

/-- Embedding of `mysql.Connect` (src/internal/database/mysql.go lines
71–88): open a handle with `sql.Open` and return its error if any; ping
the handle and return its error if any; run `mysqlMigrator.Migrate` on
the handle and return its error if any; otherwise return the handle.  The
source contains no call that closes the handle on any path. -/
def mysqlConnect (env : ConnEnv) : ConnectResult :=
  match env.openErr with
  | some e => ⟨[.openHandle], none, some e, false, false⟩
  | none =>
    match env.pingErr with
    | some e => ⟨[.openHandle, .ping], none, some e, true, false⟩
    | none =>
      match env.migrateErr with
      | some e => ⟨[.openHandle, .ping, .migrate], none, some e, true, false⟩
      | none => ⟨[.openHandle, .ping, .migrate], some (), none, true, false⟩

/-- The two resources bundled in a `TestMySQLDB` (src/internal/database/
mysql.go lines 100–104): the connection handle `DB` and the provisioned
container instance, each with an open/closed flag. -/
structure TestMySQLDB where
  dbOpen : Bool
  containerOpen : Bool
deriving DecidableEq, Repr

/-- Outcomes of the external close calls: the error `sql.DB.Close` reports
the first time the handle is closed, and the error the container's
`Close` reports the first time the instance is torn down. -/
structure CloseEnv where
  dbCloseErr : Option String
  containerCloseErr : Option String
deriving DecidableEq, Repr

/-- Modelled from the spec: closing the connection handle (`sql.DB.Close`,
external).  Releasing an open handle reports the driver's close error;
closing an already-closed handle is benign and reports nothing. -/
def dbClose (env : CloseEnv) (r : TestMySQLDB) : TestMySQLDB × Option String :=
  if r.dbOpen then ({ r with dbOpen := false }, env.dbCloseErr) else (r, none)

/-- Modelled from the spec: tearing down the provisioned container
instance (`dockertest.Resource.Close`, external).  Releasing a live
instance reports the runtime's error if any; tearing down an
already-released instance is benign. -/
def containerClose (env : CloseEnv) (r : TestMySQLDB) : TestMySQLDB × Option String :=
  if r.containerOpen then ({ r with containerOpen := false }, env.containerCloseErr)
  else (r, none)

/-- The two teardown actions of `TestMySQLDB.Close`. -/
inductive CloseAction where
  | closeContainer
  | closeDB
deriving DecidableEq, Repr

/-- Embedding of `TestMySQLDB.Close` (src/internal/database/mysql.go lines
106–109): `r.container.Close()` first, its error discarded, then
`return r.DB.Close()`.  Returns the state after both closes, the trace of
the two teardown actions in order, and the value `Close` returns. -/
def TestMySQLDB.Close (env : CloseEnv) (r : TestMySQLDB) :
    TestMySQLDB × List CloseAction × Option String :=
  let r1 := (containerClose env r).1
  let r2 := dbClose env r1
  (r2.1, [CloseAction.closeContainer, CloseAction.closeDB], r2.2)

/-- Environment of `CreateTestMySQLDB`: the testing flags it consults and
the outcomes of its external calls — creating the docker pool, running
the container, the bounded reachability retry loop, and the
connect-verify-migrate bootstrap (`mysqlConnection(...).Connect()`). -/
structure ProvisionEnv where
  shortFlag : Bool
  dockerEnabled : Bool
  newPoolErr : Option String
  runErr : Option String
  retryErr : Option String
  connectErr : Option String
deriving DecidableEq, Repr

/-- The actions `CreateTestMySQLDB` can perform, in order. -/
inductive ProvAction where
  | skip
  | newPool
  | runContainer
  | probe
  | closeContainer
  | connect
  | fatal
deriving DecidableEq, Repr

/-- Result of `CreateTestMySQLDB`: the trace of actions, the returned
composite resource (present only on full success), whether a container
instance was actually created, and whether that instance was released
before the function ended. -/
structure ProvisionResult where
  trace : List ProvAction
  resource : Option TestMySQLDB
  containerCreated : Bool
  containerReleased : Bool
deriving DecidableEq, Repr

/-- Embedding of `CreateTestMySQLDB` (src/internal/database/mysql.go lines
115–161): skip under `-short` or when docker is disabled; `t.Fatal` when
pool creation fails; run a mysql container, `t.Fatal` when that fails
(no instance exists); poll reachability with `pool.Retry`, and on
exhaustion call `resource.Close()` before `t.Fatal`; bootstrap via
`mysqlConnection(...).Connect()`, and on failure call `t.Fatal` without
closing the container; on success return the `TestMySQLDB` bundling the
handle and the instance. -/
def CreateTestMySQLDB (env : ProvisionEnv) : ProvisionResult :=
  if env.shortFlag then ⟨[.skip], none, false, false⟩
  else if !env.dockerEnabled then ⟨[.skip], none, false, false⟩
  else if env.newPoolErr.isSome then ⟨[.newPool, .fatal], none, false, false⟩
  else if env.runErr.isSome then ⟨[.newPool, .runContainer, .fatal], none, false, false⟩
  else if env.retryErr.isSome then
    ⟨[.newPool, .runContainer, .probe, .closeContainer, .fatal], none, true, true⟩
  else if env.connectErr.isSome then
    ⟨[.newPool, .runContainer, .probe, .connect, .fatal], none, true, false⟩
  else
    ⟨[.newPool, .runContainer, .probe, .connect], some ⟨true, true⟩, true, false⟩

/-- The empty database state: nothing tracked, no schema yet. -/
def emptyDb : DbState := ⟨[], []⟩

/-- Execution oracle under which every Step's statements succeed. -/
def allSucceed : Step → Bool := fun _ => true

/-- Execution oracle that fails exactly the Step named
`create_customer_watches` (the third Step of the Registry). -/
def failThirdExec : Step → Bool := fun st => st.id != "create_customer_watches"

/-- The first two Steps of the Registry. -/
def registryPrefix : List Step := mysqlMigrator.take 2

/-- The third Step of the Registry, `create_customer_watches`. -/
def failingStep : Step :=
  execsql "create_customer_watches"
    "create table if not exists customer_watches(id varchar(40) primary key, customer_id varchar(40), webhook varchar(512), auth_token varchar(128), created_at datetime, deleted_at datetime);"

/-- The Steps of the Registry after the third. -/
def registrySuffix : List Step := mysqlMigrator.drop 3

/-- A Connect environment in which all three external calls succeed. -/
def allOkConn : ConnEnv := ⟨none, none, none⟩

/-- A Connect environment whose liveness ping fails. -/
def pingFailConn : ConnEnv := ⟨none, some "connection timed out", none⟩

/-- A provisioning environment whose reachability poll exhausts its retry
budget. -/
def probeFailEnv : ProvisionEnv := ⟨false, true, none, none, some "not reachable", none⟩

/-! ### Lemmas about the Migration Runner -/

theorem migrateFrom_skip_prefix (exec : Step → Bool) (pre rest : List Step) (s : DbState)
    (h : ∀ p ∈ pre, p.id ∈ s.tracker) :
    migrateFrom exec (pre ++ rest) s = migrateFrom exec rest s := by
  induction pre with
  | nil => rfl
  | cons p pre ih =>
    have hp : p.id ∈ s.tracker := h p (List.mem_cons_self _ _)
    simpa [migrateFrom, hp] using ih fun q hq => h q (List.mem_cons_of_mem _ hq)

theorem migrateFrom_all_applied (exec : Step → Bool) (steps : List Step) (s : DbState)
    (h : ∀ p ∈ steps, p.id ∈ s.tracker) :
    migrateFrom exec steps s = (s, [], none) := by
  simpa using migrateFrom_skip_prefix exec steps [] s h

theorem migrateFrom_fresh_prefix (exec : Step → Bool) (pre rest : List Step) (s : DbState)
    (hnodup : (pre.map Step.id).Nodup)
    (hdisj : ∀ p ∈ pre, p.id ∉ s.tracker)
    (hsucc : ∀ p ∈ pre, exec p = true) :
    migrateFrom exec (pre ++ rest) s =
      ((migrateFrom exec rest ⟨s.tracker ++ pre.map Step.id, s.schema ++ pre.flatMap Step.stmts⟩).1,
        pre.map Step.id ++
          (migrateFrom exec rest ⟨s.tracker ++ pre.map Step.id, s.schema ++ pre.flatMap Step.stmts⟩).2.1,
        (migrateFrom exec rest ⟨s.tracker ++ pre.map Step.id, s.schema ++ pre.flatMap Step.stmts⟩).2.2) := by
  induction pre generalizing s with
  | nil => simp
  | cons p pre ih =>
    have hp : p.id ∉ s.tracker := hdisj p (List.mem_cons_self _ _)
    have he : exec p = true := hsucc p (List.mem_cons_self _ _)
    have hcons := List.nodup_cons.mp (show (p.id :: pre.map Step.id).Nodup by simpa using hnodup)
    have hpn : p.id ∉ pre.map Step.id := hcons.1
    have hnd : (pre.map Step.id).Nodup := hcons.2
    have hd : ∀ q ∈ pre, q.id ∉ (⟨s.tracker ++ [p.id], s.schema ++ p.stmts⟩ : DbState).tracker := by
      intro q hq
      simp only [List.mem_append, List.mem_singleton]
      rintro (h1 | h2)
      · exact hdisj q (List.mem_cons_of_mem _ hq) h1
      · exact hpn (h2 ▸ List.mem_map_of_mem Step.id hq)
    have hs : ∀ q ∈ pre, exec q = true := fun q hq => hsucc q (List.mem_cons_of_mem _ hq)
    have hstep : migrateFrom exec ((p :: pre) ++ rest) s =
        ((migrateFrom exec (pre ++ rest) ⟨s.tracker ++ [p.id], s.schema ++ p.stmts⟩).1,
          p.id :: (migrateFrom exec (pre ++ rest) ⟨s.tracker ++ [p.id], s.schema ++ p.stmts⟩).2.1,
          (migrateFrom exec (pre ++ rest) ⟨s.tracker ++ [p.id], s.schema ++ p.stmts⟩).2.2) := by
      simp [migrateFrom, hp, he]
    rw [hstep, ih _ hnd hd hs]
    simp [List.append_assoc]

theorem migrateFrom_fail_head (exec : Step → Bool) (k : Step) (post : List Step) (s : DbState)
    (hk1 : k.id ∉ s.tracker) (hk2 : exec k = false) :
    migrateFrom exec (k :: post) s = (s, [k.id], some k.id) := by
  simp [migrateFrom, hk1, hk2]

theorem migrateFrom_head_attempt (exec : Step → Bool) (k : Step) (post : List Step) (s : DbState)
    (hk : k.id ∉ s.tracker) :
    (migrateFrom exec (k :: post) s).2.1.head? = some k.id := by
  by_cases he : exec k <;> simp [migrateFrom, hk, he]

theorem migrateFrom_tracker_mono (exec : Step → Bool) (steps : List Step) (s : DbState)
    (x : String) (hx : x ∈ s.tracker) :
    x ∈ (migrateFrom exec steps s).1.tracker := by
  induction steps generalizing s with
  | nil => simpa [migrateFrom]
  | cons p rest ih =>
    by_cases hp : p.id ∈ s.tracker
    · simpa [migrateFrom, hp] using ih s hx
    · by_cases he : exec p
      · simp only [migrateFrom, hp, if_false, he, if_true]
        exact ih _ (by simp [hx])
      · simpa [migrateFrom, hp, he]

theorem migrateFrom_success_applied (exec : Step → Bool) (steps : List Step) (s : DbState)
    (h : (migrateFrom exec steps s).2.2 = none) :
    ∀ p ∈ steps, p.id ∈ (migrateFrom exec steps s).1.tracker := by
  induction steps generalizing s with
  | nil => simp
  | cons q rest ih =>
    intro p hp
    by_cases hq : q.id ∈ s.tracker
    · rw [show migrateFrom exec (q :: rest) s = migrateFrom exec rest s by
        simp [migrateFrom, hq]] at h ⊢
      rcases List.mem_cons.mp hp with rfl | hp'
      · exact migrateFrom_tracker_mono exec rest s _ hq
      · exact ih s h p hp'
    · by_cases he : exec q
      · rw [show migrateFrom exec (q :: rest) s =
            ((migrateFrom exec rest ⟨s.tracker ++ [q.id], s.schema ++ q.stmts⟩).1,
              q.id :: (migrateFrom exec rest ⟨s.tracker ++ [q.id], s.schema ++ q.stmts⟩).2.1,
              (migrateFrom exec rest ⟨s.tracker ++ [q.id], s.schema ++ q.stmts⟩).2.2) by
          simp [migrateFrom, hq, he]] at h ⊢
        rcases List.mem_cons.mp hp with rfl | hp'
        · exact migrateFrom_tracker_mono exec rest _ _ (by simp)
        · exact ih _ h p hp'
      · rw [migrateFrom_fail_head exec q rest s hq (by simpa using he)] at h
        simp at h

theorem dupId_of_mem (l₁ l₂ : List String) (x : String) (hx : x ∈ l₂) :
    dupId (l₁ ++ x :: l₂) = true := by
  induction l₁ with
  | nil => simp [dupId, hx]
  | cons y l ih => simp [dupId, ih]

/-! ### Claim theorems -/

/-- C1: for every Registry (split as `pre ++ k :: post` with distinct Step
ids) and every fresh handle, if `Migrate` fails at Step `k` (every Step
before `k` executes successfully and `k`'s execution fails), then the
Steps before `k` are recorded in the Tracker, `k` and all later Steps are
not recorded, Migrate aborts immediately returning the failing Step's
error with no later Step attempted, and a subsequent `Migrate` call (under
any execution outcome `exec2`) attempts Step `k` first. -/
theorem migrate_failure_isolation (exec exec2 : Step → Bool) (pre : List Step) (k : Step)
    (post : List Step) (s : DbState)
    (hnodup : ((pre ++ k :: post).map Step.id).Nodup)
    (hfresh : ∀ p ∈ pre ++ k :: post, p.id ∉ s.tracker)
    (hpre : ∀ p ∈ pre, exec p = true) (hk : exec k = false) :
    (∀ p ∈ pre, p.id ∈ (migrateFrom exec (pre ++ k :: post) s).1.tracker) ∧
    k.id ∉ (migrateFrom exec (pre ++ k :: post) s).1.tracker ∧
    (∀ q ∈ post, q.id ∉ (migrateFrom exec (pre ++ k :: post) s).1.tracker) ∧
    (migrateFrom exec (pre ++ k :: post) s).2.2 = some k.id ∧
    (migrateFrom exec (pre ++ k :: post) s).2.1 = pre.map Step.id ++ [k.id] ∧
    (migrateFrom exec2 (pre ++ k :: post) (migrateFrom exec (pre ++ k :: post) s).1).2.1.head? =
      some k.id := by
  have hmap : (pre ++ k :: post).map Step.id = pre.map Step.id ++ k.id :: post.map Step.id := by
    simp
  rw [hmap] at hnodup
  obtain ⟨hnpre, hnrest, hdisj⟩ := List.nodup_append.mp hnodup
  have hkpre : k.id ∉ pre.map Step.id := fun hmem => hdisj hmem (List.mem_cons_self _ _)
  have hfr : ∀ p ∈ pre, p.id ∉ s.tracker := fun p hp =>
    hfresh p (List.mem_append_left _ hp)
  have hrun := migrateFrom_fresh_prefix exec pre (k :: post) s hnpre hfr hpre
  set s1 : DbState :=
    ⟨s.tracker ++ pre.map Step.id, s.schema ++ pre.flatMap Step.stmts⟩ with hs1
  have hk1 : k.id ∉ s1.tracker := by
    rw [hs1]
    simp only [List.mem_append]
    rintro (h1 | h2)
    · exact hfresh k (List.mem_append_right _ (List.mem_cons_self _ _)) h1
    · exact hkpre h2
  have hfail := migrateFrom_fail_head exec k post s1 hk1 hk
  rw [hrun, hfail]
  refine ⟨?_, ?_, ?_, rfl, rfl, ?_⟩
  · intro p hp
    rw [hs1]
    exact List.mem_append_right _ (List.mem_map_of_mem Step.id hp)
  · exact hk1
  · intro q hq
    rw [hs1]
    simp only [List.mem_append]
    rintro (h1 | h2)
    · exact hfresh q (List.mem_append_right _ (List.mem_cons_of_mem _ hq)) h1
    · exact hdisj h2 (List.mem_cons_of_mem _ (List.mem_map_of_mem Step.id hq))
  · have hskip : migrateFrom exec2 (pre ++ k :: post) s1 = migrateFrom exec2 (k :: post) s1 :=
      migrateFrom_skip_prefix exec2 pre (k :: post) s1 fun p hp => by
        rw [hs1]
        exact List.mem_append_right _ (List.mem_map_of_mem Step.id hp)
    rw [hskip]
    exact migrateFrom_head_attempt exec2 k post s1 hk1

/-- C2: calling `Migrate` twice in succession on the same handle yields the
same final schema and Tracker contents as calling it once — whenever the
first run of the Registry `mysqlMigrator` succeeds, a second run (under
any execution outcome `exec2`) leaves the database state unchanged,
applies zero Steps, and reports no error. -/
theorem migrate_idempotent (exec exec2 : Step → Bool) (s : DbState)
    (h : (migrateFrom exec mysqlMigrator s).2.2 = none) :
    migrateFrom exec2 mysqlMigrator (migrateFrom exec mysqlMigrator s).1 =
      ((migrateFrom exec mysqlMigrator s).1, [], none) :=
  migrateFrom_all_applied exec2 mysqlMigrator _
    (migrateFrom_success_applied exec mysqlMigrator s h)

/-- C5: every Step id is unique within the Registry `mysqlMigrator` (its
construction succeeds), and constructing a Registry with two Steps sharing
the same id fails at construction — `registryNew` takes no database
handle, so no database interaction can occur. -/
theorem registry_unique_ids :
    registryNew mysqlMigrator = .ok mysqlMigrator ∧
    ∀ (pre mid post : List Step) (a b : Step), a.id = b.id →
      registryNew (pre ++ a :: mid ++ b :: post) = .error "duplicate migration id" := by
  constructor
  · rfl
  · intro pre mid post a b hab
    have hmem : a.id ∈ mid.map Step.id ++ b.id :: post.map Step.id := by
      rw [hab]
      exact List.mem_append_right _ (List.mem_cons_self _ _)
    have hdup : dupId ((pre ++ a :: mid ++ b :: post).map Step.id) = true := by
      have hmap : (pre ++ a :: mid ++ b :: post).map Step.id =
          pre.map Step.id ++ a.id :: (mid.map Step.id ++ b.id :: post.map Step.id) := by
        simp
      rw [hmap]
      exact dupId_of_mem _ _ _ hmem
    unfold registryNew
    rw [if_pos hdup]

/-- C4: `mysql.Connect` performs its steps in the fixed order open handle,
liveness ping, migrate: its trace is always a prefix of that order, the
migration runs only when open and ping both succeeded, the ping runs only
when open succeeded, and a handle is returned exactly when all three steps
succeed. -/
theorem connect_step_order (env : ConnEnv) :
    ((mysqlConnect env).trace = [ConnAction.openHandle] ∨
      (mysqlConnect env).trace = [ConnAction.openHandle, ConnAction.ping] ∨
      (mysqlConnect env).trace =
        [ConnAction.openHandle, ConnAction.ping, ConnAction.migrate]) ∧
    (ConnAction.migrate ∈ (mysqlConnect env).trace →
      env.openErr = none ∧ env.pingErr = none) ∧
    (ConnAction.ping ∈ (mysqlConnect env).trace → env.openErr = none) ∧
    ((mysqlConnect env).db.isSome ↔
      env.openErr = none ∧ env.pingErr = none ∧ env.migrateErr = none) := by
  rcases env with ⟨o, p, m⟩
  cases o <;> cases p <;> cases m <;> simp [mysqlConnect]

/-- C3 as stated is false on the code: when the liveness ping fails,
`Connect` returns the error and no handle, but the handle opened by
`sql.Open` is not released — no path of `Connect` closes it. -/
theorem connect_no_release_counterexample :
    (mysqlConnect ⟨none, some "connection refused", none⟩).err.isSome = true ∧
    (mysqlConnect ⟨none, some "connection refused", none⟩).db = none ∧
    (mysqlConnect ⟨none, some "connection refused", none⟩).handleOpened = true ∧
    (mysqlConnect ⟨none, some "connection refused", none⟩).handleClosed = false := by
  decide

/-- C3 amended: if any step of `Connect` (open, liveness probe, or
migration) fails, then `Connect` returns no handle and propagates the
first failing step's error to the caller; the opened handle, when one
exists, is not explicitly released by `Connect`. -/
theorem connect_failure_propagation (env : ConnEnv)
    (h : env.openErr.isSome ∨ env.pingErr.isSome ∨ env.migrateErr.isSome) :
    (mysqlConnect env).db = none ∧
    (mysqlConnect env).err =
      (env.openErr.orElse fun _ => env.pingErr.orElse fun _ => env.migrateErr) ∧
    (mysqlConnect env).handleClosed = false := by
  rcases env with ⟨o, p, m⟩
  cases o <;> cases p <;> cases m <;> simp_all [mysqlConnect]

/-- C6 as stated is false on the code: `TestMySQLDB.Close` tears down the
container instance first and the connection handle second, not the
handle-first (reverse-of-acquisition) order the claim states. -/
theorem close_order_counterexample :
    (TestMySQLDB.Close ⟨none, none⟩ ⟨true, true⟩).2.1 =
      [CloseAction.closeContainer, CloseAction.closeDB] ∧
    ¬ (TestMySQLDB.Close ⟨none, none⟩ ⟨true, true⟩).2.1 =
      [CloseAction.closeDB, CloseAction.closeContainer] := by
  decide

/-- C6 amended: releasing the test resource tears down its two parts in
acquisition order — the provisioned container instance first, then the
connection handle — and leaves both parts released. -/
theorem close_order (env : CloseEnv) (r : TestMySQLDB) :
    (TestMySQLDB.Close env r).2.1 = [CloseAction.closeContainer, CloseAction.closeDB] ∧
    (TestMySQLDB.Close env r).1.containerOpen = false ∧
    (TestMySQLDB.Close env r).1.dbOpen = false := by
  rcases r with ⟨d, c⟩
  cases d <;> cases c <;> simp [TestMySQLDB.Close, dbClose, containerClose]

/-- C7 as stated is false on the code: when the bootstrapping step
(`mysqlConnection(...).Connect()`) fails, `CreateTestMySQLDB` ends with a
fatal error while the created container instance is never released. -/
theorem provider_leak_counterexample :
    (CreateTestMySQLDB ⟨false, true, none, none, none,
      some "migration failed"⟩).containerCreated = true ∧
    (CreateTestMySQLDB ⟨false, true, none, none, none,
      some "migration failed"⟩).containerReleased = false ∧
    (CreateTestMySQLDB ⟨false, true, none, none, none,
      some "migration failed"⟩).trace.getLast? = some ProvAction.fatal := by
  decide

/-- C7 amended: for every failure of the ephemeral provider no resource is
returned to the caller; on pool-creation or container-run failures no
container instance exists yet; on a reachability (retry budget) failure
the created instance is released before the fatal error; on a
bootstrapping failure the created instance is not released. -/
theorem provider_failure (env : ProvisionEnv)
    (hs : env.shortFlag = false) (hd : env.dockerEnabled = true)
    (hfail : env.newPoolErr.isSome ∨ env.runErr.isSome ∨ env.retryErr.isSome ∨
      env.connectErr.isSome) :
    (CreateTestMySQLDB env).resource = none ∧
    (env.newPoolErr.isSome ∨ env.runErr.isSome →
      (CreateTestMySQLDB env).containerCreated = false) ∧
    (env.newPoolErr = none → env.runErr = none → env.retryErr.isSome →
      (CreateTestMySQLDB env).containerCreated = true ∧
      (CreateTestMySQLDB env).containerReleased = true) ∧
    (env.newPoolErr = none → env.runErr = none → env.retryErr = none →
      env.connectErr.isSome →
      (CreateTestMySQLDB env).containerCreated = true ∧
      (CreateTestMySQLDB env).containerReleased = false) := by
  rcases env with ⟨sf, de, np, rn, rt, cn⟩
  simp only at hs hd
  subst hs hd
  cases np <;> cases rn <;> cases rt <;> cases cn <;> simp_all [CreateTestMySQLDB]

/-- C9: invoking the test resource's teardown twice never fails in the
model — teardown is a total function of the resource state — and the
second invocation returns no error at all: the already-closed handle
reports nothing and the container teardown outcome is discarded. -/
theorem close_twice_benign (env env2 : CloseEnv) (r : TestMySQLDB) :
    (TestMySQLDB.Close env2 (TestMySQLDB.Close env r).1).2.2 = none ∧
    (TestMySQLDB.Close env2 (TestMySQLDB.Close env r).1).1 =
      (TestMySQLDB.Close env r).1 := by
  rcases r with ⟨d, c⟩
  cases d <;> cases c <;> simp [TestMySQLDB.Close, dbClose, containerClose]

/-- C10: `TestMySQLDB.Close` returns exactly the error (or nil) produced
by closing the connection handle, and the value it returns is unchanged
under any error of the container teardown — that error never reaches the
caller. -/
theorem close_returns_db_error (env : CloseEnv) (r : TestMySQLDB) :
    (TestMySQLDB.Close env r).2.2 = (dbClose env r).2 ∧
    ∀ e e' : Option String,
      (TestMySQLDB.Close ⟨env.dbCloseErr, e⟩ r).2.2 =
        (TestMySQLDB.Close ⟨env.dbCloseErr, e'⟩ r).2.2 := by
  rcases r with ⟨d, c⟩
  constructor
  · cases d <;> cases c <;> simp [TestMySQLDB.Close, dbClose, containerClose]
  · intro e e'
    cases d <;> cases c <;> simp [TestMySQLDB.Close, dbClose, containerClose]

/-- C8: for every user, password, address, and database name,
`mysqlConnection` assembles the DSN `user:pass@address/database?opts`
where `opts` is exactly the ampersand-join of the five fixed defaults:
connect timeout 30 seconds (`timeout=30s`), encryption disabled
(`tls=false`), UTF-8 multibyte character set (`charset=utf8mb4`), time
parsing enabled (`parseTime=true`), and lenient date handling
(`sql_mode=ALLOW_INVALID_DATES`). -/
theorem mysqlConnection_fixed_defaults (user pass address database : String) :
    mysqlConnection user pass address database =
      user ++ ":" ++ pass ++ "@" ++ address ++ "/" ++ database ++ "?" ++
        String.intercalate "&" mysqlFixedOptions := by
  have h : String.intercalate "&" mysqlFixedOptions =
      "timeout=30s&tls=false&charset=utf8mb4&parseTime=true&sql_mode=ALLOW_INVALID_DATES" := by
    rfl
  rw [h]
  rfl

/-! ### Witnesses -/

/-- Witness for C1 at a concrete input: the Registry `mysqlMigrator`,
split around its third Step, run from the empty database under an oracle
that fails exactly that Step. -/
theorem migrate_failure_isolation_witness :
    registryPrefix ++ failingStep :: registrySuffix = mysqlMigrator ∧
    ((registryPrefix ++ failingStep :: registrySuffix).map Step.id).Nodup ∧
    (∀ p ∈ registryPrefix ++ failingStep :: registrySuffix, p.id ∉ emptyDb.tracker) ∧
    (∀ p ∈ registryPrefix, failThirdExec p = true) ∧
    failThirdExec failingStep = false ∧
    ((∀ p ∈ registryPrefix,
        p.id ∈ (migrateFrom failThirdExec
          (registryPrefix ++ failingStep :: registrySuffix) emptyDb).1.tracker) ∧
      failingStep.id ∉ (migrateFrom failThirdExec
        (registryPrefix ++ failingStep :: registrySuffix) emptyDb).1.tracker ∧
      (∀ q ∈ registrySuffix,
        q.id ∉ (migrateFrom failThirdExec
          (registryPrefix ++ failingStep :: registrySuffix) emptyDb).1.tracker) ∧
      (migrateFrom failThirdExec
        (registryPrefix ++ failingStep :: registrySuffix) emptyDb).2.2 = some failingStep.id ∧
      (migrateFrom failThirdExec
        (registryPrefix ++ failingStep :: registrySuffix) emptyDb).2.1 =
          registryPrefix.map Step.id ++ [failingStep.id] ∧
      (migrateFrom failThirdExec (registryPrefix ++ failingStep :: registrySuffix)
        (migrateFrom failThirdExec
          (registryPrefix ++ failingStep :: registrySuffix) emptyDb).1).2.1.head? =
            some failingStep.id) :=
  ⟨by decide, by decide, by decide, by decide, by decide,
    migrate_failure_isolation failThirdExec failThirdExec registryPrefix failingStep
      registrySuffix emptyDb (by decide) (by decide) (by decide) (by decide)⟩

/-- Witness for C2: a successful full run from the empty database, after
which a second run of `Migrate` changes nothing and applies zero Steps. -/
theorem migrate_idempotent_witness :
    (migrateFrom allSucceed mysqlMigrator emptyDb).2.2 = none ∧
    migrateFrom allSucceed mysqlMigrator (migrateFrom allSucceed mysqlMigrator emptyDb).1 =
      ((migrateFrom allSucceed mysqlMigrator emptyDb).1, [], none) :=
  ⟨by decide, migrate_idempotent allSucceed allSucceed emptyDb (by decide)⟩

/-- Witness for C5: the concrete Registry passes construction, and a
two-Step Registry sharing one id is rejected at construction. -/
theorem registry_unique_ids_witness :
    registryNew mysqlMigrator = .ok mysqlMigrator ∧
    (execsql "dup_step" "create table a(x int);").id =
      (execsql "dup_step" "create table b(x int);").id ∧
    registryNew ([] ++ execsql "dup_step" "create table a(x int);" :: [] ++
        execsql "dup_step" "create table b(x int);" :: []) =
      .error "duplicate migration id" :=
  ⟨registry_unique_ids.1, rfl, registry_unique_ids.2 [] [] [] _ _ rfl⟩

/-- Witness for C4 at the all-success environment: the full trace occurs
and the handle is returned. -/
theorem connect_step_order_witness :
    ((mysqlConnect allOkConn).trace = [ConnAction.openHandle] ∨
      (mysqlConnect allOkConn).trace = [ConnAction.openHandle, ConnAction.ping] ∨
      (mysqlConnect allOkConn).trace =
        [ConnAction.openHandle, ConnAction.ping, ConnAction.migrate]) ∧
    (ConnAction.migrate ∈ (mysqlConnect allOkConn).trace →
      allOkConn.openErr = none ∧ allOkConn.pingErr = none) ∧
    (ConnAction.ping ∈ (mysqlConnect allOkConn).trace → allOkConn.openErr = none) ∧
    ((mysqlConnect allOkConn).db.isSome ↔
      allOkConn.openErr = none ∧ allOkConn.pingErr = none ∧
        allOkConn.migrateErr = none) :=
  connect_step_order allOkConn

/-- Witness for C3 (amended) at a failing-ping environment. -/
theorem connect_failure_propagation_witness :
    (pingFailConn.openErr.isSome ∨ pingFailConn.pingErr.isSome ∨
      pingFailConn.migrateErr.isSome) ∧
    ((mysqlConnect pingFailConn).db = none ∧
      (mysqlConnect pingFailConn).err =
        (pingFailConn.openErr.orElse fun _ =>
          pingFailConn.pingErr.orElse fun _ => pingFailConn.migrateErr) ∧
      (mysqlConnect pingFailConn).handleClosed = false) :=
  ⟨Or.inr (Or.inl (by decide)),
    connect_failure_propagation pingFailConn (Or.inr (Or.inl (by decide)))⟩

/-- Witness for C7 (amended) at a reachability-failure environment: the
created instance is released before the fatal error and no resource is
returned. -/
theorem provider_failure_witness :
    probeFailEnv.shortFlag = false ∧
    probeFailEnv.dockerEnabled = true ∧
    (probeFailEnv.newPoolErr.isSome ∨ probeFailEnv.runErr.isSome ∨
      probeFailEnv.retryErr.isSome ∨ probeFailEnv.connectErr.isSome) ∧
    ((CreateTestMySQLDB probeFailEnv).resource = none ∧
      (probeFailEnv.newPoolErr.isSome ∨ probeFailEnv.runErr.isSome →
        (CreateTestMySQLDB probeFailEnv).containerCreated = false) ∧
      (probeFailEnv.newPoolErr = none → probeFailEnv.runErr = none →
        probeFailEnv.retryErr.isSome →
        (CreateTestMySQLDB probeFailEnv).containerCreated = true ∧
        (CreateTestMySQLDB probeFailEnv).containerReleased = true) ∧
      (probeFailEnv.newPoolErr = none → probeFailEnv.runErr = none →
        probeFailEnv.retryErr = none → probeFailEnv.connectErr.isSome →
        (CreateTestMySQLDB probeFailEnv).containerCreated = true ∧
        (CreateTestMySQLDB probeFailEnv).containerReleased = false)) :=
  ⟨rfl, rfl, Or.inr (Or.inr (Or.inl (by decide))),
    provider_failure probeFailEnv rfl rfl (Or.inr (Or.inr (Or.inl (by decide))))⟩

end Watchman
